import Mathlib

/-!
# Verification of the `recurrent` scheduler (sniperkit/recurrent, `scheduler.go`)

A shallow embedding of the single-task recurring scheduler. The Go program
(`src/scheduler.go`) runs one background goroutine (the Loop, `Start`,
lines 90-111) that selects among three channels:

* `t = throttle(c, s.signal)` (line 95): the ready-source output. `throttle`
  (lines 156-168) runs `for range ch1 { ch3 <- <-ch2 }`: for every item
  received from the gate channel `ch1`, it pulls one item from the signal
  buffer `ch2` (blocking until one is available) and hands it to the loop,
  which invokes `s.target()` (line 100).
* `s.clock.After(s.interval)` (line 102): when the interval elapses, the
  loop calls `s.Signal()` (line 103) - an internal post into the same buffer.
* `s.quit` (line 105): closed by `Stop` (line 114); the loop returns, and
  `defer close(s.signal)` (line 92) closes the signal buffer.

The gate channel `ch1` is `hammer(quit)` in unthrottled mode (always ready
until quit, lines 124-140) and the throttle ticker via `convert` in throttled
mode (`WithThrottle`, lines 75-84).

We model the system as a state machine driven by a trace of atomic actions;
the trace resolves the scheduling nondeterminism of goroutines and `select`.
Go channel semantics are embedded explicitly: the capacity-1 `signal` channel
is a `Bool` slot, a try-send on it when full takes the `default` branch
(drop), a send on it after `close` panics, and `close` of an already-closed
channel panics. Panics are the `crash` outcome; actions whose channel
operation cannot occur in the given state (e.g. the loop consuming a
forwarded signal when none is pending) are `stuck` and cannot appear in a
valid trace. The handoff `ch3 <- <-ch2` of `throttle` together with the
`case <-t: s.target()` branch of the loop is modelled as one atomic `forward`
action,
since `ch3` is unbuffered and the target runs synchronously in the loop.
Excess gate ticks arriving while the gate already holds an unspent tick are
coalesced (the ticker channel has capacity 1; ticks never queue unboundedly).
-/

set_option autoImplicit false

namespace Recurrent

/-- State of one scheduler instance, from `scheduler` (scheduler.go lines
27-34) plus the channel/goroutine state that the struct fields imply:
`buffer` is the content of the capacity-1 channel `s.signal` (line 55),
`signalClosed` records `close(s.signal)` (line 92), `quitClosed` records
`close(s.quit)` (line 114), `loopRunning` is whether the `for`/`select` loop
of the `Start` goroutine (lines 97-108) is still iterating, `gateWaiting` is
whether the `throttle` goroutine has consumed a gate item from `ch1` and is
blocked at `<-ch2` (line 163), `throttled` records whether `WithThrottle`
was applied (lines 75-84), and `invocations` counts completed `s.target()`
calls (line 100). -/
structure Sched where
  throttled : Bool
  buffer : Bool
  signalClosed : Bool
  quitClosed : Bool
  started : Bool
  loopRunning : Bool
  gateWaiting : Bool
  invocations : Nat
deriving DecidableEq, Repr

/-- A fresh scheduler as built by `NewScheduler` (scheduler.go lines 41-63):
empty signal buffer, nothing closed, loop not yet started. The argument
records whether the `WithThrottle` config was applied. -/
def NewScheduler (throttled : Bool) : Sched :=
  { throttled := throttled
    buffer := false
    signalClosed := false
    quitClosed := false
    started := false
    loopRunning := false
    gateWaiting := false
    invocations := 0 }

/-- Outcome of an atomic action: a new state, a Go panic (`crash`), or an
action that is not enabled in this state (`stuck`). -/
inductive Out where
  | ok (s : Sched) : Out
  | crash : Out
  | stuck : Out
deriving DecidableEq, Repr

/-- The body of `Signal` (scheduler.go lines 117-122):
`select { case s.signal <- struct{}{}: default: }`. A send on a closed
channel panics (also inside a `select`); a try-send on a full capacity-1
channel takes the `default` branch and drops the post; otherwise the post
lands in the buffer. -/
def Signal (s : Sched) : Out :=
  if s.signalClosed then Out.crash
  else if s.buffer then Out.ok s
  else Out.ok { s with buffer := true }

/-- The body of `Stop` (scheduler.go lines 113-115): `close(s.quit)`.
Closing an already-closed channel panics. -/
def Stop (s : Sched) : Out :=
  if s.quitClosed then Out.crash
  else Out.ok { s with quitClosed := true }

/-- Atomic actions of the system. `signalCall`/`stopCall`/`startCall` are the
caller-side API calls; `elapse` is the loop taking the
`case <-s.clock.After(s.interval)` branch; `tick` is the throttle ticker
firing and the `throttle` goroutine consuming it from `ch1`; `forward` is the
`throttle` goroutine pulling one signal from the buffer and the loop taking
the `case <-t` branch and running `s.target()` to completion; `quitObserve`
is the loop taking the `case <-s.quit` branch, returning, and the deferred
`close(s.signal)` running. -/
inductive Act where
  | signalCall : Act
  | stopCall : Act
  | startCall : Act
  | elapse : Act
  | tick : Act
  | forward : Act
  | quitObserve : Act
deriving DecidableEq, Repr

/-- One atomic action of the system (scheduler.go lines 90-168). -/
def step (s : Sched) (a : Act) : Out :=
  match a with
  | Act.signalCall => Signal s
  | Act.stopCall => Stop s
  | Act.startCall =>
      -- `Start` (lines 90-111) launches the loop goroutine; calling it
      -- twice is undefined (loop duplication) and outside the model.
      if s.started then Out.stuck
      else Out.ok { s with started := true, loopRunning := true }
  | Act.elapse =>
      -- `case <-s.clock.After(s.interval): s.Signal()` (lines 102-103):
      -- only the running loop arms and consumes the interval timer, and its
      -- whole effect is the internal `Signal` post.
      if s.loopRunning then Signal s else Out.stuck
  | Act.tick =>
      -- Throttled gate: the ticker exists only while the loop runs
      -- (created in the withChan of `WithThrottle`, stopped by its defer,
      -- lines 77-82). The `throttle` goroutine consumes the tick from
      -- `ch1` and then blocks at `<-ch2` (line 163); a tick arriving while
      -- one is already unspent is coalesced.
      if s.throttled && s.loopRunning then
        if s.gateWaiting then Out.ok s
        else Out.ok { s with gateWaiting := true }
      else Out.stuck
  | Act.forward =>
      -- `ch3 <- <-ch2` (line 163) plus `case <-t: s.target()` (lines
      -- 99-100): needs a pending signal in the buffer, the loop still
      -- iterating, and - in throttled mode - an unspent gate tick
      -- (in unthrottled mode `hammer` keeps `ch1` always ready until quit,
      -- lines 124-140, so no tick is needed).
      if s.loopRunning && s.buffer && (!s.throttled || s.gateWaiting) then
        Out.ok { s with buffer := false, gateWaiting := false,
                        invocations := s.invocations + 1 }
      else Out.stuck
  | Act.quitObserve =>
      -- `case <-s.quit: return` (lines 105-106) is enabled once `Stop` has
      -- closed `quit`; on return the deferred `close(s.signal)` (line 92)
      -- closes the buffer.
      if s.loopRunning && s.quitClosed then
        Out.ok { s with loopRunning := false, signalClosed := true }
      else Out.stuck

/-- Run a trace of atomic actions from a state; a panic or a non-enabled
action aborts the run with that outcome. -/
def run (s : Sched) (acts : List Act) : Out :=
  match acts with
  | [] => Out.ok s
  | a :: rest =>
      match step s a with
      | Out.ok s' => run s' rest
      | Out.crash => Out.crash
      | Out.stuck => Out.stuck

/-- An unthrottled scheduler right after `Start` - the state reached by
`run (NewScheduler false) [Act.startCall]`. -/
def startedUnthrottled : Sched :=
  { NewScheduler false with started := true, loopRunning := true }

/-- A throttled scheduler right after `Start` - the state reached by
`run (NewScheduler true) [Act.startCall]`. -/
def startedThrottled : Sched :=
  { NewScheduler true with started := true, loopRunning := true }

/-- Number of gate-timer ticks in a trace. -/
def countTicks : List Act → Nat
  | [] => 0
  | Act.tick :: rest => countTicks rest + 1
  | _ :: rest => countTicks rest

/-- Number of posts into the signal buffer in a trace: external `Signal`
calls (lines 117-122) and interval-elapsed internal posts (line 103). -/
def countPosts : List Act → Nat
  | [] => 0
  | Act.signalCall :: rest => countPosts rest + 1
  | Act.elapse :: rest => countPosts rest + 1
  | _ :: rest => countPosts rest

/-- Occupancy of the capacity-1 signal buffer, as a number. -/
def bbit (s : Sched) : Nat := if s.buffer then 1 else 0

/-- Unspent gate-tick budget held by the `throttle` goroutine (consumed from
`ch1`, not yet matched with a signal), as a number. -/
def gbit (s : Sched) : Nat := if s.gateWaiting then 1 else 0

/-- The trace of the throttled-burst scenario (also the scenario of
`TestThrottledExplicitFire` in scheduler_test.go): 100 `Signal` calls, with
a gate tick after every 4th call (at i = 0, 4, ..., 96, so 25 ticks), each
tick followed by the loop processing the released signal. -/
def c5trace : List Act :=
  (List.range 100).flatMap (fun i =>
    Act.signalCall :: (if i % 4 = 0 then [Act.tick, Act.forward] else []))

/-- The trace of n spaced-out signals (the scenario of `TestExplicitFire` in
scheduler_test.go): each `Signal` call is followed by the loop processing it
before the next call. -/
def c8trace : Nat → List Act
  | 0 => []
  | Nat.succ n => Act.signalCall :: Act.forward :: c8trace n

/-!
## Timed model of the loop

The untimed model above abstracts the interval timer to the `elapse` action.
To reason about when that action can occur, we model the loop (lines 97-108)
once more with an explicit clock: `s.clock.After(s.interval)` is evaluated
afresh on every iteration of the `for` loop, i.e. every time the `select` is
re-entered, so the one-shot interval timer is re-armed at the time the loop
finishes processing the previous event. `armedAt` is that time; the pending
interval event fires at `armedAt + interval`. The `tforward t` action is the
loop processing a forwarded signal at time `t` (running the target and
re-entering the select); `telapse` is the armed timer firing (whose handler
posts an internal `Signal`, line 103, and re-enters the select); `tsignal`
is an external `Signal` post, which touches only the buffer and does not
wake the loop by itself. -/

/-- Timed state of the unthrottled loop: the immutable `interval`
(scheduler.go lines 29, 51, 67-71), the time `armedAt` at which the loop
last re-entered the `select` and requested `clock.After(interval)`
(line 102), the signal buffer, and the invocation count. -/
structure TSched where
  interval : Nat
  armedAt : Nat
  buffer : Bool
  invocations : Nat
deriving DecidableEq, Repr

/-- Atomic actions of the timed loop model. -/
inductive TAct where
  | tsignal : TAct
  | tforward (t : Nat) : TAct
  | telapse : TAct
deriving DecidableEq, Repr

/-- The time at which the currently armed `clock.After(interval)` one-shot
timer (line 102) will fire. -/
def nextElapseAt (s : TSched) : Nat := s.armedAt + s.interval

/-- One atomic action of the timed loop model. An external post coalesces
into the buffer without waking the loop; processing a forwarded signal at
time `t` invokes the target and re-enters the select at `t` (re-arming the
interval timer); the interval event fires at `armedAt + interval`, posts an
internal signal, and re-enters the select at that instant. -/
def tstep (s : TSched) (a : TAct) : Option TSched :=
  match a with
  | TAct.tsignal => some { s with buffer := true }
  | TAct.tforward t =>
      if s.buffer then
        some { s with buffer := false, invocations := s.invocations + 1,
                      armedAt := t }
      else none
  | TAct.telapse =>
      some { s with buffer := true, armedAt := s.armedAt + s.interval }

/-!
## Shared invariant lemmas
-/

/-- The `countTicks` of a cons splits into head and tail contributions. -/
theorem countTicks_cons (a : Act) (rest : List Act) :
    countTicks (a :: rest) = countTicks [a] + countTicks rest := by
  cases a <;> simp [countTicks, Nat.add_comm]

/-- The `countPosts` of a cons splits into head and tail contributions. -/
theorem countPosts_cons (a : Act) (rest : List Act) :
    countPosts (a :: rest) = countPosts [a] + countPosts rest := by
  cases a <;> simp [countPosts] <;> omega

/-- A single action preserves the immutable configuration flag and the
started flag. -/
theorem step_config (s : Sched) (a : Act) (s' : Sched)
    (h : step s a = Out.ok s') :
    s'.throttled = s.throttled ∧ (s.started = true → s'.started = true) := by
  cases a <;> simp only [step, Signal, Stop] at h <;> split_ifs at h <;>
    simp_all <;> (cases h ; simp)

/-- Once the loop has exited (and the scheduler was started, so the loop
cannot be started again), every enabled action leaves the loop exited and
the invocation count unchanged. -/
theorem step_exit (s : Sched) (a : Act) (s' : Sched)
    (hs : s.started = true) (hl : s.loopRunning = false)
    (h : step s a = Out.ok s') :
    s'.started = true ∧ s'.loopRunning = false ∧
      s'.invocations = s.invocations := by
  cases a <;> simp only [step, Signal, Stop] at h <;> split_ifs at h <;>
    simp_all <;> (cases h ; simp_all)

/-- Throttled tick budget, one action: the invocation count plus the unspent
gate budget grows by at most the number of ticks in the action. -/
theorem step_budget (s : Sched) (a : Act) (s' : Sched)
    (ht : s.throttled = true) (h : step s a = Out.ok s') :
    s'.throttled = true ∧
      s'.invocations + gbit s' ≤ s.invocations + gbit s + countTicks [a] := by
  cases a <;> simp only [step, Signal, Stop] at h <;> split_ifs at h <;>
    simp_all [gbit, countTicks] <;> (cases h ; simp_all [gbit, countTicks])

/-- Post conservation, one action: the invocation count plus the buffer
occupancy grows by at most the number of buffer posts in the action. -/
theorem step_posts (s : Sched) (a : Act) (s' : Sched)
    (h : step s a = Out.ok s') :
    s'.invocations + bbit s' ≤ s.invocations + bbit s + countPosts [a] := by
  cases a <;> simp only [step, Signal, Stop] at h <;> split_ifs at h <;>
    simp_all [bbit, countPosts] <;> (cases h ; simp_all [bbit, countPosts])

/-- `run` version of `step_exit`: after loop exit, no trace of enabled
actions changes the invocation count. -/
theorem run_exit (acts : List Act) :
    ∀ (s s' : Sched), s.started = true → s.loopRunning = false →
      run s acts = Out.ok s' → s'.invocations = s.invocations := by
  induction acts with
  | nil =>
      intro s s' _ _ h
      simp only [run, Out.ok.injEq] at h
      rw [← h]
  | cons a rest ih =>
      intro s s' hs hl h
      simp only [run] at h
      cases hsa : step s a with
      | ok s1 =>
          rw [hsa] at h
          obtain ⟨h1, h2, h3⟩ := step_exit s a s1 hs hl hsa
          rw [ih s1 s' h1 h2 h, h3]
      | crash => rw [hsa] at h; simp at h
      | stuck => rw [hsa] at h; simp at h

/-- `run` version of `step_budget`: in throttled mode the invocation count
plus the unspent gate budget grows by at most the number of ticks in the
trace. -/
theorem run_budget (acts : List Act) :
    ∀ (s s' : Sched), s.throttled = true → run s acts = Out.ok s' →
      s'.throttled = true ∧
        s'.invocations + gbit s' ≤ s.invocations + gbit s + countTicks acts := by
  induction acts with
  | nil =>
      intro s s' ht h
      simp only [run, Out.ok.injEq] at h
      rw [← h]
      simp [countTicks, ht]
  | cons a rest ih =>
      intro s s' ht h
      simp only [run] at h
      cases hsa : step s a with
      | ok s1 =>
          rw [hsa] at h
          obtain ⟨h1, h2⟩ := step_budget s a s1 ht hsa
          obtain ⟨h3, h4⟩ := ih s1 s' h1 h
          refine ⟨h3, ?_⟩
          rw [countTicks_cons]
          omega
      | crash => rw [hsa] at h; simp at h
      | stuck => rw [hsa] at h; simp at h

/-- `run` version of `step_posts`: the invocation count plus the buffer
occupancy grows by at most the number of buffer posts in the trace. -/
theorem run_posts (acts : List Act) :
    ∀ (s s' : Sched), run s acts = Out.ok s' →
      s'.invocations + bbit s' ≤ s.invocations + bbit s + countPosts acts := by
  induction acts with
  | nil =>
      intro s s' h
      simp only [run, Out.ok.injEq] at h
      rw [← h]
      simp
  | cons a rest ih =>
      intro s s' h
      simp only [run] at h
      cases hsa : step s a with
      | ok s1 =>
          rw [hsa] at h
          have h2 := step_posts s a s1 hsa
          have h4 := ih s1 s' h
          rw [countPosts_cons]
          omega
      | crash => rw [hsa] at h; simp at h
      | stuck => rw [hsa] at h; simp at h

/-!
## Claims
-/

/-- C1, counterexample: the claim says that after the scheduler loop has
exited, a subsequent call to `Signal()` is a safe no-op that does not crash.
In the code, loop exit runs `defer close(s.signal)` (scheduler.go line 92),
and the try-send in `Signal` (lines 118-121) then operates on a closed
channel, which panics in Go even inside a `select` with a `default` branch.
Concrete run: start, stop, the loop observes quit and exits, then one
`Signal()` call - the run ends in a panic, not a no-op. -/
theorem C1_counterexample :
    run (NewScheduler false)
        [Act.startCall, Act.stopCall, Act.quitObserve, Act.signalCall] =
      Out.crash := by
  decide

/-- C1, amended: after the loop has exited and closed the signal buffer, a
subsequent or racing `Signal()` call does not block and is not dropped
silently - it panics (send on a closed channel), so `Signal` must not be
called once the loop has exited. -/
theorem C1_signal_after_close_panics (s : Sched) (h : s.signalClosed = true) :
    step s Act.signalCall = Out.crash := by
  simp [step, Signal, h]

/-- Witness for C1: the amended theorem applied to a concrete post-exit
state. -/
theorem C1_witness :
    step { NewScheduler false with signalClosed := true } Act.signalCall =
      Out.crash :=
  C1_signal_after_close_panics
    { NewScheduler false with signalClosed := true } rfl

/-- C2, counterexample: the claim says that in throttled mode, when a gate
tick finds no pending signal, nothing fires from that tick and the next
opportunity for a signal to pass is the following timer tick. In the code,
`throttle` (scheduler.go line 163) runs `ch3 <- <-ch2`: after consuming the
tick it blocks waiting on the signal buffer, so the next signal posted is
released immediately, with no further tick. Concrete run: start (throttled),
one gate tick with an empty buffer, then one `Signal()` call, then the
release - one invocation occurs although only a single tick ever fired, and
the signal was posted after that tick; under the claim the invocation count
would have to be 0. -/
theorem C2_counterexample :
    run (NewScheduler true)
        [Act.startCall, Act.tick, Act.signalCall, Act.forward] =
      Out.ok { throttled := true, buffer := false, signalClosed := false,
               quitClosed := false, started := true, loopRunning := true,
               gateWaiting := false, invocations := 1 } := by
  decide

/-- C2, amended: in throttled mode, at every gate-timer tick at most one
pending signal is released to the loop, and at most one signal is released
per tick overall (first conjunct: starting with no unspent tick, the number
of invocations a trace produces is bounded by the number of its ticks); if
no signal is pending at the instant of the tick, the tick budget is
retained and the next signal posted is released immediately, without
waiting for the following timer tick (second conjunct: with an unspent tick
and a pending signal, the release is enabled with no further tick). -/
theorem C2_throttle_gate (acts : List Act) (s s' : Sched) :
    (s.throttled = true → s.gateWaiting = false → run s acts = Out.ok s' →
      s'.invocations ≤ s.invocations + countTicks acts) ∧
    (s.throttled = true → s.loopRunning = true → s.gateWaiting = true →
      s.buffer = true →
      step s Act.forward =
        Out.ok { s with buffer := false, gateWaiting := false,
                        invocations := s.invocations + 1 }) := by
  constructor
  · intro ht hg h
    have h2 := (run_budget acts s s' ht h).2
    have h0 : gbit s = 0 := by simp [gbit, hg]
    have h1 : s'.invocations ≤ s'.invocations + gbit s' := Nat.le_add_right _ _
    omega
  · intro ht hl hg hb
    simp [step, ht, hl, hg, hb]

/-- Witness for C2: both conjuncts of the amended theorem at concrete
inputs - the counterexample trace produces 1 invocation with 1 tick, and a
throttled state holding an unspent tick and a pending signal releases it
in one step. -/
theorem C2_witness :
    ({ throttled := true, buffer := false, signalClosed := false,
       quitClosed := false, started := true, loopRunning := true,
       gateWaiting := false, invocations := 1 } : Sched).invocations ≤
      (NewScheduler true).invocations +
        countTicks [Act.startCall, Act.tick, Act.signalCall, Act.forward] ∧
    step { startedThrottled with gateWaiting := true, buffer := true }
        Act.forward =
      Out.ok { startedThrottled with
                buffer := false,
                gateWaiting := false,
                invocations := 1 } :=
  ⟨(C2_throttle_gate [Act.startCall, Act.tick, Act.signalCall, Act.forward]
      (NewScheduler true)
      { throttled := true, buffer := false, signalClosed := false,
        quitClosed := false, started := true, loopRunning := true,
        gateWaiting := false, invocations := 1 }).1 rfl rfl (by decide),
   (C2_throttle_gate []
      { startedThrottled with gateWaiting := true, buffer := true }
      startedThrottled).2 rfl rfl rfl rfl⟩

/-- C3, counterexample: the claim says that after `Stop()` returns, no
further target invocations ever occur. In the code, `Stop` only closes the
`quit` channel (scheduler.go line 114) and returns without waiting; the
`select` of the still-running loop (lines 98-107) then has both the quit
branch and any pending trigger branch ready, and Go may take either, so a
signal already in flight can still invoke the target after `Stop` has
returned. Concrete run: start, one `Signal()` post, `Stop()` (quit now
closed), then the loop takes the ready-source branch - one invocation
occurs after `Stop` returned; under the claim it would have to be 0. -/
theorem C3_counterexample :
    run (NewScheduler false)
        [Act.startCall, Act.signalCall, Act.stopCall, Act.forward] =
      Out.ok { throttled := false, buffer := false, signalClosed := false,
               quitClosed := true, started := true, loopRunning := true,
               gateWaiting := false, invocations := 1 } := by
  decide

/-- C3, amended: once the loop has observed the shutdown event and exited
(`case <-s.quit: return`, scheduler.go lines 105-106), no further target
invocations ever occur, whatever actions follow; a `Stop()` call alone does
not prevent triggers already pending at that moment from firing before the
loop observes the shutdown. -/
theorem C3_no_invocations_after_exit (acts : List Act) (s s' : Sched)
    (hs : s.started = true) (hl : s.loopRunning = false)
    (h : run s acts = Out.ok s') : s'.invocations = s.invocations :=
  run_exit acts s s' hs hl h

/-- Witness for C3: the amended theorem applied to a concrete post-exit
state and a concrete trace. -/
theorem C3_witness :
    ({ NewScheduler false with
        started := true,
        signalClosed := true,
        quitClosed := true } : Sched).invocations =
      ({ NewScheduler false with
          started := true,
          signalClosed := true } : Sched).invocations :=
  C3_no_invocations_after_exit [Act.stopCall]
    { NewScheduler false with started := true, signalClosed := true }
    { NewScheduler false with
      started := true,
      signalClosed := true,
      quitClosed := true }
    rfl rfl (by decide)

/-- C4: the signal buffer is a capacity-1 coalescing slot (`make(chan
struct{}, 1)`, scheduler.go line 55, so at most one pending, unconsumed
signal can be held, which the model states by making the buffer a single
`Bool` slot). First conjunct: a `Signal()` post made while a signal is
already pending returns with the state unchanged - it does not block, does
not crash, and the post is silently dropped (the `default` branch of the
try-send, lines 118-121). Second conjunct: two `Signal()` calls made before
the loop consumes the first, followed by any trace that posts no further
signals, yield at most one additional target invocation. -/
theorem C4_coalescing (s : Sched) (acts : List Act) (s' : Sched) :
    (s.signalClosed = false → s.buffer = true →
      step s Act.signalCall = Out.ok s) ∧
    (s.buffer = false → countPosts acts = 0 →
      run s (Act.signalCall :: Act.signalCall :: acts) = Out.ok s' →
      s'.invocations ≤ s.invocations + 1) := by
  constructor
  · intro hc hb
    simp [step, Signal, hc, hb]
  · intro hb hp h
    by_cases hc : s.signalClosed = true
    · simp [run, step, Signal, hc] at h
    · simp only [Bool.not_eq_true] at hc
      have e1 : step s Act.signalCall = Out.ok { s with buffer := true } := by
        simp [step, Signal, hc, hb]
      have e2 : step { s with buffer := true } Act.signalCall =
          Out.ok { s with buffer := true } := by
        simp [step, Signal, hc]
      simp only [run, e1, e2] at h
      have h2 := run_posts acts { s with buffer := true } s' h
      rw [hp] at h2
      have h4 : bbit { s with buffer := true } = 1 := rfl
      have h5 : ({ s with buffer := true } : Sched).invocations =
          s.invocations := rfl
      rw [h4, h5] at h2
      have h3 : s'.invocations ≤ s'.invocations + bbit s' := Nat.le_add_right _ _
      omega

/-- Witness for C4: both conjuncts at concrete inputs - a post onto a full
buffer is the identity, and the trace signal-signal-forward from the started
unthrottled scheduler produces exactly one invocation. -/
theorem C4_witness :
    step { startedUnthrottled with buffer := true } Act.signalCall =
      Out.ok { startedUnthrottled with buffer := true } ∧
    ({ startedUnthrottled with invocations := 1 } : Sched).invocations ≤
      startedUnthrottled.invocations + 1 :=
  ⟨(C4_coalescing { startedUnthrottled with buffer := true } [] startedUnthrottled).1
      rfl rfl,
   (C4_coalescing startedUnthrottled [Act.forward]
      { startedUnthrottled with invocations := 1 }).2
      rfl rfl (by decide)⟩

/-- C5: the throttled burst scenario of `TestThrottledExplicitFire`
(scheduler_test.go lines 136-177): 100 `Signal()` calls with a gate tick
after every 4th call (25 ticks in all), each tick releasing the one pending
coalesced signal to the loop, produce exactly 25 target invocations - the
three excess signals of each burst of four are dropped by the full
capacity-1 buffer, not queued. -/
theorem C5_throttled_burst :
    run startedThrottled c5trace =
      Out.ok { startedThrottled with buffer := true, invocations := 25 } := by
  decide

/-- C6: for an interval-elapsed event the running loop does not invoke the
target; its entire effect is the internal `s.Signal()` call (scheduler.go
lines 102-103), i.e. the very same buffer post a caller makes through
`Signal` (first conjunct), and the invocation count is unchanged by it
(second conjunct). -/
theorem C6_elapse_is_internal_signal (s s' : Sched)
    (h : s.loopRunning = true) :
    step s Act.elapse = step s Act.signalCall ∧
      (step s Act.elapse = Out.ok s' → s'.invocations = s.invocations) := by
  constructor
  · simp [step, h]
  · intro h2
    simp only [step, h, if_true, Signal] at h2
    split_ifs at h2 <;> cases h2 <;> rfl

/-- Witness for C6: the theorem at the started unthrottled scheduler, whose
elapse action posts into the empty buffer. -/
theorem C6_witness :
    step startedUnthrottled Act.elapse =
        step startedUnthrottled Act.signalCall ∧
      (step startedUnthrottled Act.elapse =
          Out.ok { startedUnthrottled with buffer := true } →
        ({ startedUnthrottled with buffer := true } : Sched).invocations =
          startedUnthrottled.invocations) :=
  C6_elapse_is_internal_signal startedUnthrottled
    { startedUnthrottled with buffer := true } rfl

/-- C7: `Stop` is `close(s.quit)` (scheduler.go line 114). Closing an
already-closed channel panics, so a second `Stop()` call on the same
scheduler is a fatal usage error (first conjunct); a single `Stop()` call
while `quit` is still open never fails observably - it just records the
closure (second conjunct). -/
theorem C7_stop_twice_fatal (s : Sched) :
    (s.quitClosed = true → step s Act.stopCall = Out.crash) ∧
    (s.quitClosed = false →
      step s Act.stopCall = Out.ok { s with quitClosed := true }) := by
  constructor
  · intro h
    simp [step, Stop, h]
  · intro h
    simp [step, Stop, h]

/-- Witness for C7: both conjuncts at concrete states - a second `Stop` on
an already-stopped running scheduler crashes, a first `Stop` on the running
scheduler succeeds. -/
theorem C7_witness :
    step { startedUnthrottled with quitClosed := true } Act.stopCall =
        Out.crash ∧
      step startedUnthrottled Act.stopCall =
        Out.ok { startedUnthrottled with quitClosed := true } :=
  ⟨(C7_stop_twice_fatal { startedUnthrottled with quitClosed := true }).1 rfl,
   (C7_stop_twice_fatal startedUnthrottled).2 rfl⟩

/-- Auxiliary for C8: running n spaced signal/process pairs from the started
unthrottled scheduler with k prior invocations accumulates exactly n more
invocations. -/
theorem c8trace_run (n : Nat) :
    ∀ k : Nat,
      run { startedUnthrottled with invocations := k } (c8trace n) =
        Out.ok { startedUnthrottled with invocations := k + n } := by
  induction n with
  | zero => intro k; simp [c8trace, run]
  | succ n ih =>
      intro k
      have e : run { startedUnthrottled with invocations := k }
          (c8trace (Nat.succ n)) =
          run { startedUnthrottled with invocations := k + 1 } (c8trace n) :=
        rfl
      rw [e, ih (k + 1)]
      have h2 : k + 1 + n = k + Nat.succ n := by omega
      rw [h2]

/-- C8: in unthrottled mode (the scenario of `TestExplicitFire`,
scheduler_test.go lines 100-134), calling `Signal()` exactly n times while
running, each call followed by the loop processing it before the next call,
results in exactly n target invocations - no signal is lost when signals
are spaced out. -/
theorem C8_spaced_signals (n : Nat) :
    run startedUnthrottled (c8trace n) =
      Out.ok { startedUnthrottled with invocations := n } := by
  have h := c8trace_run n 0
  simpa using h

/-- C9: the automatic-firing countdown is re-armed on every loop iteration:
`s.clock.After(s.interval)` (scheduler.go line 102) is evaluated afresh each
time the `for` loop re-enters the `select`, so after the loop processes a
ready-source event at time t the armed interval event is due at
t + interval (first conjunct), after an interval-elapsed event (at time
armedAt + interval) the next one is due one further interval later (second
conjunct), and a mere external `Signal` post, which does not wake the loop,
does not re-arm the countdown (third conjunct) - the schedule is relative
to the most recent loop event, not aligned to `Start`. -/
theorem C9_after_rearmed (s s' : TSched) (t : Nat) :
    (tstep s (TAct.tforward t) = some s' →
      nextElapseAt s' = t + s.interval) ∧
    (tstep s TAct.telapse = some s' →
      nextElapseAt s' = nextElapseAt s + s.interval) ∧
    (tstep s TAct.tsignal = some s' → s'.armedAt = s.armedAt) := by
  refine ⟨?_, ?_, ?_⟩
  · intro h
    simp only [tstep] at h
    split_ifs at h
    cases h
    simp [nextElapseAt]
  · intro h
    simp only [tstep, Option.some.injEq] at h
    cases h
    simp [nextElapseAt]
  · intro h
    simp only [tstep, Option.some.injEq] at h
    cases h
    simp

/-- Witness for C9: the theorem at a concrete timed state with interval 10,
armed at 0, buffer pending: processing the signal at time 3 re-arms the
interval timer for time 13. -/
theorem C9_witness :
    nextElapseAt { interval := 10, armedAt := 3, buffer := false,
                   invocations := 1 } = 3 + 10 :=
  (C9_after_rearmed
    { interval := 10, armedAt := 0, buffer := true, invocations := 0 }
    { interval := 10, armedAt := 3, buffer := false, invocations := 1 }
    3).1 (by decide)

/-- C10: a `Signal()` call made after construction but before `Start()`
lands in the buffer without blocking (first conjunct); a second pre-start
call is dropped, leaving still at most one buffered signal (second
conjunct); and in unthrottled mode that one buffered signal causes exactly
one target invocation once the loop starts (third conjunct), with no
further invocation possible without a new post (fourth conjunct). -/
theorem C10_signal_before_start :
    run (NewScheduler false) [Act.signalCall] =
        Out.ok { NewScheduler false with buffer := true } ∧
      run (NewScheduler false) [Act.signalCall, Act.signalCall] =
        Out.ok { NewScheduler false with buffer := true } ∧
      run (NewScheduler false)
          [Act.signalCall, Act.startCall, Act.forward] =
        Out.ok { startedUnthrottled with invocations := 1 } ∧
      step { startedUnthrottled with invocations := 1 } Act.forward =
        Out.stuck := by
  refine ⟨by decide, by decide, by decide, by decide⟩

end Recurrent
